import Mathlib

/-!
Shallow embedding of the RGD test-orchestration harness
(test/scripts/TestRunner.py of GPUOpen-Tools/radeon_gpu_detective).

The harness drives three external executables (crash generator, backend
validator, CLI tool).  Results of these subprocess invocations and the
observable filesystem effects (crash-generator log match, crash-dump
presence, backend assertion count) are supplied through an explicit
environment; everything else (control flow, state updates, counters,
classification, exit status) is translated directly from the source.
-/

namespace RGDTest

/-! ## Logging levels (source lines 99-109) -/

/-- Logging level DEBUG, source line 100. -/
def DEBUG : Nat := 10

/-- Logging level TEST_INFO, source line 101. -/
def TEST_INFO : Nat := 15

/-- Logging level INFO, source line 102. -/
def INFO : Nat := 20

/-- Logging level TEST_MSG, source line 103. -/
def TEST_MSG : Nat := 22

/-- Logging level TEST_PASS, source line 104. -/
def TEST_PASS : Nat := 32

/-- Logging level WARNING, source line 105. -/
def WARNING : Nat := 30

/-- Logging level TEST_FAIL, source line 106. -/
def TEST_FAIL : Nat := 37

/-- Logging level ERROR, source line 107. -/
def ERROR : Nat := 40

/-- Logging level TEST_RESULT, source line 108. -/
def TEST_RESULT : Nat := 45

/-- Logging level CRITICAL, source line 109. -/
def CRITICAL : Nat := 100

/-! ## Supported APIs (source line 80) -/

/-- The supported API list, source line 80. -/
def SUPPORTED_APIS : List String := ["DX12"]

/-! ## Data model -/

/-- One test declaration from a descriptor JSON file (section of the source
reading the descriptor at lines 733-751).  A missing JSON key is `none`;
for the boolean keys the source only ever asks for truthiness with a
default of False, so a missing boolean key and an explicit `false` are
observationally equal and are both modelled as `false`. -/
structure TestDecl where
  test_name : Option String
  crash_test_case : Option Int
  verify_crash_dump : Bool
  verify_rgd_output : Bool
  page_fault_case : Bool
deriving Repr, DecidableEq

/-- Python truthiness of the value returned by
test.get ("crash_test_case", False): the default False and the integer 0
are falsy; any other integer is truthy. -/
def pyTruthy : Option Int → Bool
  | none => false
  | some n => n != 0

/-- The per-case record TestCrashCase, restricted to the outcome fields the
verification needs.  Initial values mirror the constructor at source
lines 402-424 (is_app_crashed, is_capture_test_passed and
is_backend_tests_passed start True; is_crash_dump_generated and
is_page_fault_case start False). -/
structure TestCrashCase where
  test_api : String
  test_name : String
  case_no : Int
  verify_crash_dump : Bool
  verify_rgd_output : Bool
  is_page_fault_case : Bool
  is_app_crashed : Bool
  is_capture_test_passed : Bool
  is_backend_tests_passed : Bool
  is_crash_dump_generated : Bool
deriving Repr, DecidableEq

/-- TestCrashCase constructor defaults, source lines 402-424. -/
def TestCrashCase.init (api name : String) (case_no : Int) (vcd vro : Bool) :
    TestCrashCase :=
  { test_api := api, test_name := name, case_no := case_no,
    verify_crash_dump := vcd, verify_rgd_output := vro,
    is_page_fault_case := false, is_app_crashed := true,
    is_capture_test_passed := true, is_backend_tests_passed := true,
    is_crash_dump_generated := false }

/-- Observable result of one pipeline iteration's subprocess runs and
artifact searches: the crash-generator exit code, whether
move_crash_generator_log found a log whose name embeds the case token,
whether move_generated_crash_dump extracted a dump, and the backend
validator's failed-assertion count. -/
structure CaseEnv where
  capture_rc : Int
  log_crashed : Bool
  dump_generated : Bool
  backend_rc : Int
deriving Repr, DecidableEq

/-! ## Capture classification (launch_crash_generator_exe, lines 499-557) -/

/-- launch_crash_generator_exe, source lines 499-557, restricted to its
state updates: is_app_crashed is set from move_crash_generator_log
(line 515), is_crash_dump_generated from move_generated_crash_dump
(line 519), then is_capture_test_passed is classified by the
if / elif / else at lines 528-554. -/
def launch_crash_generator_exe (c : TestCrashCase) (return_code : Int)
    (log_crashed dump_generated : Bool) : TestCrashCase :=
  let c1 := { c with is_app_crashed := log_crashed,
                     is_crash_dump_generated := dump_generated }
  if return_code == 0 || c1.is_crash_dump_generated then
    { c1 with is_capture_test_passed := true }
  else if c1.is_app_crashed then
    { c1 with is_capture_test_passed := false }
  else
    { c1 with is_capture_test_passed := false }

/-- launch_rgd_test_exe, source lines 559-587, restricted to its state
update: the backend validator's return code is a failed-assertion count
and is_backend_tests_passed is set to whether it is zero. -/
def launch_rgd_test_exe (c : TestCrashCase) (rc_failed_assertions_count : Int) :
    TestCrashCase :=
  if rc_failed_assertions_count == 0 then
    { c with is_backend_tests_passed := true }
  else
    { c with is_backend_tests_passed := false }

/-! ## Crash-dump relocation (move_generated_crash_dump, lines 466-497) -/

/-- Python substring test (the `in` operator on strings), used at source
lines 449 and 482 to test whether a file name embeds the case token. -/
def containsSubstr (s pat : String) : Bool :=
  decide (pat.data <:+: s.data)

/-- The case token built at source lines 443 and 481. -/
def caseString (case_no : Int) : String :=
  "case" ++ toString case_no

/-- Effect on the destination directory of move_folder (source lines
871-882) moving a file into it: shutil.move into a directory places the
file there under its base name; if a file of that name already exists
the move raises, is caught, and the directory is unchanged — either way
the directory afterwards contains that name. -/
def moveFile (name : String) (dest : List String) : List String :=
  if dest.contains name then dest else dest ++ [name]

/-- Mutable state threaded through the per-file loop of
move_generated_crash_dump (source lines 478-492): the destination
directory contents, the is_crash_dump local, and the recorded
generated_rgd_crash_dump_file_path field. -/
structure MoveSt where
  dest : List String
  is_crash_dump : Bool
  generated_rgd_crash_dump_file_path : Option String
deriving Repr, DecidableEq

/-- Body of the loop at source lines 478-492: for a file whose name embeds
the case token, move it to the destination, then count the files with
that name in the destination; a count other than one is sys.exit 1
(modelled as `none`), otherwise the path is recorded and is_crash_dump
set.  Files not embedding the token are skipped. -/
def processDumpFile (case_no : Int) (st : MoveSt) (file : String) :
    Option MoveSt :=
  if containsSubstr file (caseString case_no) then
    let dest1 := moveFile file st.dest
    if dest1.count file != 1 then
      none
    else
      some { dest := dest1, is_crash_dump := true,
             generated_rgd_crash_dump_file_path := some file }
  else
    some st

/-- Abstract filesystem view for move_generated_crash_dump: the run-scoped
rgd-dumps-run* directories under the crash-generator directory (each as
the list of its .rgd file names, in glob order) and the contents of the
test output files directory. -/
structure DumpFS where
  runDirs : List (List String)
  dest : List String
deriving Repr, DecidableEq

/-- move_generated_crash_dump, source lines 466-497.  If no run-scoped
directory exists the function returns False having touched nothing.
Otherwise the last globbed directory (index -1, line 473) is searched;
each matching dump file is processed by the loop body (processDumpFile);
sys.exit 1 inside the loop is `none`; on completion every globbed
run-scoped directory is deleted (lines 494-495) and the flag and the
recorded path are returned. -/
def move_generated_crash_dump (case_no : Int) (fs : DumpFS) :
    Option (Bool × Option String × DumpFS) :=
  if fs.runDirs.isEmpty then
    some (false, none, fs)
  else
    match (fs.runDirs.getLastD []).foldlM (processDumpFile case_no)
        (MoveSt.mk fs.dest false none) with
    | none => none
    | some st =>
      some (st.is_crash_dump, st.generated_rgd_crash_dump_file_path,
            DumpFS.mk [] st.dest)

/-! ## Test driver (TestDriver.run_tests, lines 717-783) -/

/-- Unhandled Python exceptions the driver loop can raise: the f-string at
source line 739 reads the local variable test_name, which is bound only
at line 735 inside the verify_crash_dump-false branch, so evaluating it
before that branch has run raises NameError. -/
inductive RunErr
  | nameError
deriving Repr, DecidableEq

/-- Local state of one TestDriver.run_tests call: the accumulated
crash_cases list, the binding status of the loop-local variable
test_name, counts of warnings and critical messages logged, the number
of external processes invoked so far, and the number of pipeline
iterations executed (used to index the environment). -/
structure RunState where
  crash_cases : List TestCrashCase
  test_name_binding : Option String
  warnings : Nat
  criticals : Nat
  processes : Nat
  case_index : Nat
deriving Repr, DecidableEq

/-- Initial run_tests state: empty case list, test_name unbound. -/
def RunState.init : RunState :=
  { crash_cases := [], test_name_binding := none, warnings := 0,
    criticals := 0, processes := 0, case_index := 0 }

/-- One iteration of the innermost loop of run_tests (source lines
733-775).  Entries with falsy verify_crash_dump bind test_name and log a
warning (lines 734-736).  Entries with a falsy case id log a warning
whose message reads test_name — a NameError when it is unbound (lines
738-739).  Otherwise a TestCrashCase is constructed with the descriptor
values (lines 741-749), appended (line 751), the crash generator is
launched (lines 753-754), and if the capture test passed and a dump was
generated the backend validator and the CLI tool are also launched
(lines 756-767); a skipped backend stage only logs (lines 768-773). -/
def run_decl (env : Nat → CaseEnv) (api : String) (st : RunState)
    (test : TestDecl) : Except RunErr RunState :=
  if test.verify_crash_dump = false then
    .ok { st with test_name_binding := some (test.test_name.getD "N/A"),
                  warnings := st.warnings + 1 }
  else if pyTruthy test.crash_test_case = false then
    match st.test_name_binding with
    | none => .error RunErr.nameError
    | some _ => .ok { st with warnings := st.warnings + 1 }
  else
    let e := env st.case_index
    let c0 := TestCrashCase.init api (test.test_name.getD "NULL")
      (test.crash_test_case.getD 0) test.verify_crash_dump
      test.verify_rgd_output
    let c0 := if test.page_fault_case then
        { c0 with is_page_fault_case := true } else c0
    let c1 := launch_crash_generator_exe c0 e.capture_rc e.log_crashed
      e.dump_generated
    let step :=
      if c1.is_capture_test_passed then
        if c1.is_crash_dump_generated then
          (launch_rgd_test_exe c1 e.backend_rc, 3)
        else
          (c1, 1)
      else
        (c1, 1)
    .ok { st with crash_cases := st.crash_cases ++ [step.1],
                  processes := st.processes + step.2,
                  case_index := st.case_index + 1 }

/-- The per-API body of run_tests (source lines 727-775): an unsupported
API logs a critical message and runs none of its declarations; a
supported API runs every declaration in order. -/
def run_api_tests (env : Nat → CaseEnv) (st : RunState) (api : String)
    (test_set : List TestDecl) : Except RunErr RunState :=
  if SUPPORTED_APIS.contains api = false then
    .ok { st with criticals := st.criticals + 1 }
  else
    test_set.foldlM (run_decl env api) st

/-- Processing of one descriptor document (the api_tests_set.items loop,
source line 727): each API entry in order. -/
def run_descriptor (env : Nat → CaseEnv) (st : RunState)
    (api_tests_set : List (String × List TestDecl)) :
    Except RunErr RunState :=
  api_tests_set.foldlM (fun s p => run_api_tests env s p.1 p.2) st

/-! ## Final status (TestDriver.log_final_test_status, lines 786-863) -/

/-- The four TestDriver counter fields (source lines 691-694), all zero at
construction. -/
structure TestDriver where
  count_capture_tests_passed : Nat
  count_capture_tests_failed : Nat
  count_backend_tests_passed : Nat
  count_backend_tests_failed : Nat
deriving Repr, DecidableEq

/-- TestDriver constructor counter values, source lines 691-694. -/
def TestDriver.init : TestDriver := ⟨0, 0, 0, 0⟩

/-- Counting loop body of log_final_test_status, source lines 793-805: a
capture pass increments the capture-passed counter and then counts the
case's is_backend_tests_passed flag as a backend pass or fail; a capture
failure increments only the capture-failed counter. -/
def count_case (d : TestDriver) (t : TestCrashCase) : TestDriver :=
  if t.is_capture_test_passed then
    if t.is_backend_tests_passed then
      { d with count_capture_tests_passed := d.count_capture_tests_passed + 1,
               count_backend_tests_passed := d.count_backend_tests_passed + 1 }
    else
      { d with count_capture_tests_passed := d.count_capture_tests_passed + 1,
               count_backend_tests_failed := d.count_backend_tests_failed + 1 }
  else
    { d with count_capture_tests_failed := d.count_capture_tests_failed + 1 }

/-- Result of log_final_test_status: the counters it computed, its boolean
return value is_test_failed, and whether it removed the test output
files directory. -/
structure FinalStatus where
  counters : TestDriver
  is_test_failed : Bool
  output_dir_removed : Bool
deriving Repr, DecidableEq

/-- log_final_test_status, source lines 786-863, restricted to its
computation: fold the counting loop over crash_cases, then (lines
856-861) if any capture or backend test failed set is_test_failed and
retain the output directory regardless of the retention flag; otherwise
remove the output directory exactly when retention is disabled. -/
def log_final_test_status (crash_cases : List TestCrashCase)
    (retain_output_files : Bool) : FinalStatus :=
  let k := crash_cases.foldl count_case TestDriver.init
  if k.count_capture_tests_failed != 0 || k.count_backend_tests_failed != 0 then
    { counters := k, is_test_failed := true, output_dir_removed := false }
  else if retain_output_files = false then
    { counters := k, is_test_failed := false, output_dir_removed := true }
  else
    { counters := k, is_test_failed := false, output_dir_removed := false }

/-! ## run_tests and the process exit code -/

/-- The parts of TestConfig (source lines 326-399) the driver loop reads:
the descriptor documents (already parsed from JSON) and the retention
flag. -/
structure TestConfig where
  test_descriptors : List (List (String × List TestDecl))
  retain_output_files : Bool

/-- TestDriver.run_tests, source lines 717-783.  The source iterates over
test_config.test_descriptors, but the block from line 777 to the
`return is_test_failed` at line 783 is indented inside that for loop, so
the first iteration processes its descriptor, calls
log_final_test_status, and returns — descriptor files after the first
are never opened.  With an empty descriptor list the loop body never
runs and Python returns None (modelled as `none`). -/
def run_tests (env : Nat → CaseEnv) (cfg : TestConfig) :
    Except RunErr (Option (Bool × FinalStatus × RunState)) :=
  match cfg.test_descriptors with
  | [] => .ok none
  | d :: _ =>
    match run_descriptor env RunState.init d with
    | .error e => .error e
    | .ok st =>
      let r := log_final_test_status st.crash_cases cfg.retain_output_files
      .ok (some (r.is_test_failed, r, st))

/-- The process exit status set by the __main__ block, source lines
941-946: sys.exit 1 when main returned a truthy is_test_failed,
otherwise the script falls off the end and exits 0. -/
def script_exit_code (is_test_failed : Bool) : Nat :=
  if is_test_failed then 1 else 0

/-! ## Argument parsing for the retention flag (source lines 935, 372-374) -/

/-- argparse semantics of a store_true option: the destination holds True
when the flag is present on the command line and the configured default
otherwise. -/
def store_true_arg (dflt : Bool) (present : Bool) : Bool :=
  if present then true else dflt

/-- The parsed value of the --retain option (source line 935: action
store_true with default True), which set_test_config copies into
TestConfig.retain_output_files at source line 374. -/
def parsed_retain (present : Bool) : Bool :=
  store_true_arg true present

/-! ## Helper lemmas -/

/-- Closed form of log_final_test_status: the counters are the fold of the
counting loop, is_test_failed is the disjunction of the two failure
counters being non-zero, and the output directory is removed exactly
when no test failed and retention is disabled. -/
theorem log_final_test_status_closed_form (crash_cases : List TestCrashCase)
    (retain : Bool) :
    log_final_test_status crash_cases retain =
      { counters := crash_cases.foldl count_case TestDriver.init,
        is_test_failed :=
          ((crash_cases.foldl count_case TestDriver.init).count_capture_tests_failed != 0 ||
           (crash_cases.foldl count_case TestDriver.init).count_backend_tests_failed != 0),
        output_dir_removed :=
          (!((crash_cases.foldl count_case TestDriver.init).count_capture_tests_failed != 0 ||
             (crash_cases.foldl count_case TestDriver.init).count_backend_tests_failed != 0) &&
           !retain) } := by
  simp only [log_final_test_status]
  split
  next h => simp [h]
  next h =>
    rw [Bool.not_eq_true] at h
    cases retain <;> simp [h]

/-! ## Claim theorems -/

/-- Claim C7, counterexample: the structured logger's numeric level for
test-pass (32) is not strictly less than the level for warning (30);
in fact warning is strictly below test-pass. -/
theorem test_pass_level_above_warning_level :
    WARNING < TEST_PASS ∧ ¬ TEST_PASS < WARNING := by
  decide

/-- Claim C7, amended: the structured logger's numeric severity levels are
strictly increasing in the order debug < test-info < info < test-msg <
warning < test-pass < test-fail < error < test-result < critical; in
particular warning is strictly below test-pass. -/
theorem logging_levels_strictly_increasing :
    DEBUG < TEST_INFO ∧ TEST_INFO < INFO ∧ INFO < TEST_MSG ∧
    TEST_MSG < WARNING ∧ WARNING < TEST_PASS ∧ TEST_PASS < TEST_FAIL ∧
    TEST_FAIL < ERROR ∧ ERROR < TEST_RESULT ∧ TEST_RESULT < CRITICAL := by
  decide

/-- Claim C8: for every command line, the parsed value of the --retain
store_true option with default True is True, so
TestConfig.retain_output_files is True on every run and the branch of
log_final_test_status that removes the output directory when retention
is disabled is unreachable from the command-line interface. -/
theorem retain_flag_always_true (present : Bool)
    (crash_cases : List TestCrashCase) :
    parsed_retain present = true ∧
    (log_final_test_status crash_cases (parsed_retain present)).output_dir_removed
      = false := by
  have h : parsed_retain present = true := by
    cases present <;> rfl
  refine ⟨h, ?_⟩
  rw [h, log_final_test_status_closed_form]
  simp

/-- Claim C2: launch_crash_generator_exe classifies the capture outcome by
the decision table: exit code 0 or a generated dump yields
is_capture_test_passed true; a non-zero exit code with no dump yields
is_capture_test_passed false both when a matching crash-generator log
was found (is_app_crashed true) and when none was (is_app_crashed
false). -/
theorem capture_outcome_decision_table (c : TestCrashCase) (rc : Int)
    (log_crashed dump : Bool) :
    ((rc = 0 ∨ dump = true) →
       (launch_crash_generator_exe c rc log_crashed dump).is_capture_test_passed
         = true) ∧
    (rc ≠ 0 → dump = false → log_crashed = true →
       (launch_crash_generator_exe c rc log_crashed dump).is_capture_test_passed
         = false ∧
       (launch_crash_generator_exe c rc log_crashed dump).is_app_crashed = true) ∧
    (rc ≠ 0 → dump = false → log_crashed = false →
       (launch_crash_generator_exe c rc log_crashed dump).is_capture_test_passed
         = false ∧
       (launch_crash_generator_exe c rc log_crashed dump).is_app_crashed
         = false) := by
  refine ⟨?_, ?_, ?_⟩
  · rintro (h | h) <;> subst h <;> simp [launch_crash_generator_exe]
  · rintro h1 h2 h3
    subst h2; subst h3
    simp [launch_crash_generator_exe, h1]
  · rintro h1 h2 h3
    subst h2; subst h3
    simp [launch_crash_generator_exe, h1]

/-- Witness for the capture decision table: a concrete case with exit code
1, no dump and a matching log fails the capture test with
is_app_crashed true. -/
theorem capture_outcome_decision_table_witness :
    (launch_crash_generator_exe
        (TestCrashCase.init "DX12" "t" 3 true false) 1 true false).is_capture_test_passed
      = false ∧
    (launch_crash_generator_exe
        (TestCrashCase.init "DX12" "t" 3 true false) 1 true false).is_app_crashed
      = true :=
  (capture_outcome_decision_table
    (TestCrashCase.init "DX12" "t" 3 true false) 1 true false).2.1
    (by decide) rfl rfl

/-- Claim C6: after the summary, if any capture or backend test failed the
output directory is retained regardless of the retention flag; with no
failure and retention disabled it is removed; with no failure and
retention enabled it is left in place. -/
theorem retention_policy (crash_cases : List TestCrashCase) (retain : Bool) :
    ((log_final_test_status crash_cases retain).is_test_failed = true →
       (log_final_test_status crash_cases retain).output_dir_removed = false) ∧
    ((log_final_test_status crash_cases retain).is_test_failed = false →
       retain = false →
       (log_final_test_status crash_cases retain).output_dir_removed = true) ∧
    ((log_final_test_status crash_cases retain).is_test_failed = false →
       retain = true →
       (log_final_test_status crash_cases retain).output_dir_removed = false) := by
  simp only [log_final_test_status]
  split
  next h => simp
  next h => cases retain <;> simp

/-- Witness for the retention policy: with no cases (hence no failure) and
the retention flag set, the output directory is not removed. -/
theorem retention_policy_witness :
    (log_final_test_status [] true).output_dir_removed = false :=
  (retention_policy [] true).2.2 rfl rfl

/-- Claim C4: the value run_tests hands back to main is the is_test_failed
computed by log_final_test_status, and the process exit code set from it
by the __main__ block is non-zero exactly when at least one capture test
or at least one backend test failed. -/
theorem exit_code_nonzero_iff_any_test_failed (crash_cases : List TestCrashCase)
    (retain : Bool) (env : Nat → CaseEnv) (cfg : TestConfig) :
    (script_exit_code (log_final_test_status crash_cases retain).is_test_failed ≠ 0 ↔
       ((log_final_test_status crash_cases retain).counters.count_capture_tests_failed ≠ 0 ∨
        (log_final_test_status crash_cases retain).counters.count_backend_tests_failed ≠ 0)) ∧
    (∀ b r st, run_tests env cfg = .ok (some (b, r, st)) →
       b = (log_final_test_status st.crash_cases cfg.retain_output_files).is_test_failed) := by
  constructor
  · rw [log_final_test_status_closed_form]
    simp only [script_exit_code]
    split
    next h =>
      simp only [bne_iff_ne, ne_eq, Bool.or_eq_true] at h
      simpa using h
    next h =>
      simp only [bne_iff_ne, ne_eq, Bool.or_eq_true] at h
      simpa using h
  · intro b r st h
    unfold run_tests at h
    cases hd : cfg.test_descriptors with
    | nil =>
      rw [hd] at h
      simp at h
    | cons d rest =>
      rw [hd] at h
      dsimp only at h
      cases hrd : run_descriptor env RunState.init d with
      | error e =>
        rw [hrd] at h
        simp at h
      | ok st2 =>
        rw [hrd] at h
        simp only [Except.ok.injEq, Option.some.injEq, Prod.mk.injEq] at h
        obtain ⟨hb, _, hst⟩ := h
        rw [← hb, ← hst]

/-- Witness for the exit-code property: the bi-implication instantiated at
an empty case list. -/
theorem exit_code_nonzero_iff_any_test_failed_witness :
    script_exit_code (log_final_test_status [] true).is_test_failed ≠ 0 ↔
      ((log_final_test_status [] true).counters.count_capture_tests_failed ≠ 0 ∨
       (log_final_test_status [] true).counters.count_backend_tests_failed ≠ 0) :=
  (exit_code_nonzero_iff_any_test_failed [] true
    (fun _ => CaseEnv.mk 0 false false 0)
    (TestConfig.mk [] true)).1

/-- Claim C5: move_generated_crash_dump returns False and touches nothing
when no run-scoped directory exists; every non-aborting call that saw at
least one run-scoped directory leaves all of them deleted; and the loop
body, on a dump file embedding the case token, aborts the process
exactly when the destination does not hold exactly one file with that
name after the move, and otherwise records the path and sets the
dump-found flag. -/
theorem move_generated_crash_dump_postcondition (case_no : Int) (fs : DumpFS) :
    (fs.runDirs = [] → move_generated_crash_dump case_no fs = some (false, none, fs)) ∧
    (∀ b rec fs2, fs.runDirs ≠ [] →
       move_generated_crash_dump case_no fs = some (b, rec, fs2) →
       fs2.runDirs = []) ∧
    (∀ st file, containsSubstr file (caseString case_no) = true →
       ((processDumpFile case_no st file = none ↔
           (moveFile file st.dest).count file ≠ 1) ∧
        (∀ st2, processDumpFile case_no st file = some st2 →
           (moveFile file st.dest).count file = 1 ∧
           st2.is_crash_dump = true ∧
           st2.generated_rgd_crash_dump_file_path = some file ∧
           st2.dest = moveFile file st.dest))) := by
  refine ⟨?_, ?_, ?_⟩
  · intro h
    simp [move_generated_crash_dump, h]
  · intro b rec fs2 hne h
    unfold move_generated_crash_dump at h
    rw [if_neg (by simpa using hne)] at h
    split at h
    · simp at h
    · simp only [Option.some.injEq, Prod.mk.injEq] at h
      rw [← h.2.2]
  · intro st file hmatch
    constructor
    · by_cases hc : (moveFile file st.dest).count file = 1
      · simp [processDumpFile, hmatch, hc]
      · simp [processDumpFile, hmatch, hc]
    · intro st2 h
      by_cases hc : (moveFile file st.dest).count file = 1
      · simp only [processDumpFile, hmatch, if_true, hc, bne_self_eq_false,
          Bool.false_eq_true, if_false, Option.some.injEq] at h
        rw [← h]
        exact ⟨hc, rfl, rfl, rfl⟩
      · simp [processDumpFile, hmatch, hc] at h

/-- Witness for the dump-relocation postcondition: with no run-scoped
rgd-dumps-run directories present, the call returns False, records no
path and leaves the filesystem untouched. -/
theorem move_generated_crash_dump_postcondition_witness :
    move_generated_crash_dump 3 (DumpFS.mk [] ["old.rgd"]) =
      some (false, none, DumpFS.mk [] ["old.rgd"]) :=
  (move_generated_crash_dump_postcondition 3 (DumpFS.mk [] ["old.rgd"])).1 rfl

/-- Claim C9, counterexample: a descriptor whose single entry has
verify_crash_dump true and crash_test_case 0 does not make run_tests log
a warning and continue — run_tests raises NameError, because the warning
message at source line 739 reads the unbound local test_name. -/
theorem zero_case_id_warning_cex :
    run_tests (fun _ => CaseEnv.mk 0 false false 0)
      (TestConfig.mk
        [[("DX12", [TestDecl.mk (some "zero id case") (some 0) true false false])]]
        true) = .error RunErr.nameError := by
  rfl

/-- Claim C9, amended: a descriptor entry with verify_crash_dump true and a
missing or falsy crash_test_case (such as the integer 0) is treated as
having no valid case id: no TestCrashCase is constructed and no process
is invoked; a warning is logged only when the loop variable test_name
was bound by an earlier verify_crash_dump-false entry, and otherwise the
iteration raises NameError. -/
theorem falsy_case_id_skips_case (env : Nat → CaseEnv) (api : String)
    (st : RunState) (test : TestDecl)
    (h1 : test.verify_crash_dump = true)
    (h2 : pyTruthy test.crash_test_case = false) :
    (st.test_name_binding = none →
       run_decl env api st test = .error RunErr.nameError) ∧
    (∀ s, st.test_name_binding = some s →
       run_decl env api st test = .ok { st with warnings := st.warnings + 1 }) := by
  constructor
  · intro hb
    simp [run_decl, h1, h2, hb]
  · intro s hb
    simp [run_decl, h1, h2, hb]

/-- Witness for the falsy-case-id behaviour: the first entry of a run with
verify_crash_dump true and crash_test_case 0 raises NameError. -/
theorem falsy_case_id_skips_case_witness :
    run_decl (fun _ => CaseEnv.mk 0 false false 0) "DX12" RunState.init
      (TestDecl.mk (some "zero id case") (some 0) true false false) =
      .error RunErr.nameError :=
  (falsy_case_id_skips_case (fun _ => CaseEnv.mk 0 false false 0) "DX12"
    RunState.init (TestDecl.mk (some "zero id case") (some 0) true false false)
    rfl rfl).1 rfl

/-- Helper for claim C10: a declaration with verify_crash_dump true never
binds the loop variable test_name — it either raises NameError or leaves
the binding absent. -/
theorem run_decl_keeps_binding_none (env : Nat → CaseEnv) (api : String)
    (st : RunState) (d : TestDecl)
    (hd : d.verify_crash_dump = true)
    (hb : st.test_name_binding = none) :
    run_decl env api st d = .error RunErr.nameError ∨
    ∃ st2, run_decl env api st d = .ok st2 ∧ st2.test_name_binding = none := by
  by_cases ht : pyTruthy d.crash_test_case = true
  · right
    unfold run_decl
    rw [if_neg (by simp [hd]), if_neg (by simp [ht])]
    exact ⟨_, rfl, hb⟩
  · left
    rw [Bool.not_eq_true] at ht
    simp [run_decl, hd, ht, hb]

/-- Helper for claim C10: if every declaration before the offending one has
verify_crash_dump true (so test_name was never bound) and the offending
declaration has verify_crash_dump true with a falsy case id, the
declaration loop raises NameError. -/
theorem decl_loop_nameerror (env : Nat → CaseEnv) (api : String)
    (pre : List TestDecl) (test : TestDecl) (rest : List TestDecl)
    (hpre : ∀ d ∈ pre, d.verify_crash_dump = true)
    (h1 : test.verify_crash_dump = true)
    (h2 : pyTruthy test.crash_test_case = false) :
    ∀ st : RunState, st.test_name_binding = none →
      (pre ++ test :: rest).foldlM (run_decl env api) st =
        .error RunErr.nameError := by
  induction pre with
  | nil =>
    intro st hb
    rw [List.nil_append, List.foldlM_cons]
    have herr : run_decl env api st test = .error RunErr.nameError := by
      simp [run_decl, h1, h2, hb]
    rw [herr]
    rfl
  | cons d ds ih =>
    intro st hb
    rw [List.cons_append, List.foldlM_cons]
    rcases run_decl_keeps_binding_none env api st d
        (hpre d (List.mem_cons_self d ds)) hb with herr | ⟨st2, hok, hb2⟩
    · rw [herr]
      rfl
    · rw [hok]
      have := ih (fun x hx => hpre x (List.mem_cons_of_mem d hx)) st2 hb2
      simpa using this

/-- Claim C10: when a descriptor entry with verify_crash_dump true and a
missing or falsy crash_test_case is reached before any entry with
verify_crash_dump false has been processed, run_tests raises an
unhandled NameError — the variable test_name used in the
invalid-case-id warning is bound only in the verify_crash_dump-false
branch. -/
theorem run_tests_nameerror_on_unbound_test_name (env : Nat → CaseEnv)
    (pre : List TestDecl) (test : TestDecl) (rest : List TestDecl)
    (apis : List (String × List TestDecl))
    (descs : List (List (String × List TestDecl))) (retain : Bool)
    (hpre : ∀ d ∈ pre, d.verify_crash_dump = true)
    (h1 : test.verify_crash_dump = true)
    (h2 : pyTruthy test.crash_test_case = false) :
    run_tests env
      (TestConfig.mk ((("DX12", pre ++ test :: rest) :: apis) :: descs) retain) =
      .error RunErr.nameError := by
  have hdecl := decl_loop_nameerror env "DX12" pre test rest hpre h1 h2
    RunState.init rfl
  unfold run_tests
  dsimp only
  have hrd : run_descriptor env RunState.init
      (("DX12", pre ++ test :: rest) :: apis) = .error RunErr.nameError := by
    unfold run_descriptor
    rw [List.foldlM_cons]
    have hapi : run_api_tests env RunState.init "DX12" (pre ++ test :: rest) =
        .error RunErr.nameError := by
      unfold run_api_tests
      rw [if_neg (by simp [SUPPORTED_APIS])]
      exact hdecl
    rw [hapi]
    rfl
  rw [hrd]

/-- Witness for the NameError claim: a single-entry descriptor whose entry
has verify_crash_dump true and no crash_test_case key makes run_tests
raise NameError. -/
theorem run_tests_nameerror_on_unbound_test_name_witness :
    run_tests (fun _ => CaseEnv.mk 0 false false 0)
      (TestConfig.mk
        [[("DX12", [TestDecl.mk (some "missing id case") none true false false])]]
        true) = .error RunErr.nameError :=
  run_tests_nameerror_on_unbound_test_name (fun _ => CaseEnv.mk 0 false false 0)
    [] (TestDecl.mk (some "missing id case") none true false false) [] [] [] true
    (by intro d hd; cases hd) rfl rfl

/-- Claim C1, evaluation at the failing input: run_tests with any
descriptor list behaves exactly as with its first descriptor alone
(the return at source line 783 sits inside the per-descriptor loop),
and on a concrete config with two descriptor files — the second holding
a declaration whose crash-generator run would fail (exit code 1, no
log, no dump) — only one case is ever constructed and launched and the
summary reports no failure. -/
theorem run_tests_processes_only_first_descriptor :
    (∀ (env : Nat → CaseEnv) (d1 : List (String × List TestDecl))
       (rest : List (List (String × List TestDecl))) (retain : Bool),
       run_tests env (TestConfig.mk (d1 :: rest) retain) =
         run_tests env (TestConfig.mk [d1] retain)) ∧
    (run_tests
        (fun n => if n = 0 then CaseEnv.mk 0 false false 0
                  else CaseEnv.mk 1 false false 0)
        (TestConfig.mk
          [[("DX12", [TestDecl.mk (some "first descriptor case") (some 1)
              true false false])],
           [("DX12", [TestDecl.mk (some "second descriptor case") (some 2)
              true false false])]]
          true)).map
      (Option.map (fun r => (r.1, r.2.2.crash_cases.length, r.2.2.case_index))) =
      .ok (some (false, 1, 1)) := by
  constructor
  · intro env d1 rest retain
    rfl
  · rfl

/-- Claim C3, counterexample: a run with one case whose capture test passes
with no dump generated (exit code 0, no dump) yields final counters with
count_backend_tests_passed equal to 1, not 0 — the skipped backend stage
does increment the backend-passed counter, because
is_backend_tests_passed keeps its constructor default True and the
counting loop of log_final_test_status counts every capture-passed case
as a backend pass or fail. -/
theorem backend_skip_counter_cex :
    (run_tests (fun _ => CaseEnv.mk 0 false false 0)
        (TestConfig.mk
          [[("DX12", [TestDecl.mk (some "expected no dump") (some 3)
              true false false])]]
          true)).map
      (Option.map (fun r => r.2.1.counters)) =
      .ok (some (TestDriver.mk 1 0 1 0)) := by
  rfl

/-- Claim C3, amended: for every test case whose capture test passed (exit
code 0) with no crash dump generated, the backend stage is skipped and
the final counters computed by log_final_test_status increment
count_backend_tests_passed — not count_backend_tests_failed — for that
case, since is_backend_tests_passed retains its constructor default
True. -/
theorem backend_skip_counts_as_backend_pass (log_crashed : Bool)
    (backend_rc : Int) (name : String) (n : Int) (h : n ≠ 0) :
    (run_tests (fun _ => CaseEnv.mk 0 log_crashed false backend_rc)
        (TestConfig.mk
          [[("DX12", [TestDecl.mk (some name) (some n) true false false])]]
          true)).map
      (Option.map (fun r => r.2.1.counters)) =
      .ok (some (TestDriver.mk 1 0 1 0)) := by
  have ht : pyTruthy (TestDecl.mk (some name) (some n) true false
      false).crash_test_case = true := by
    simp [pyTruthy, h]
  have hdecl : run_decl (fun _ => CaseEnv.mk 0 log_crashed false backend_rc)
      "DX12" RunState.init (TestDecl.mk (some name) (some n) true false false) =
      .ok { RunState.init with
            crash_cases := [launch_crash_generator_exe
              (TestCrashCase.init "DX12" name n true false) 0 log_crashed false],
            processes := 1, case_index := 1 } := by
    unfold run_decl
    rw [if_neg (by simp), if_neg (by simp [ht])]
    rfl
  have hapi : run_api_tests (fun _ => CaseEnv.mk 0 log_crashed false backend_rc)
      RunState.init "DX12" [TestDecl.mk (some name) (some n) true false false] =
      .ok { RunState.init with
            crash_cases := [launch_crash_generator_exe
              (TestCrashCase.init "DX12" name n true false) 0 log_crashed false],
            processes := 1, case_index := 1 } := by
    unfold run_api_tests
    rw [if_neg (by simp [SUPPORTED_APIS]), List.foldlM_cons, hdecl]
    rfl
  have hrd : run_descriptor (fun _ => CaseEnv.mk 0 log_crashed false backend_rc)
      RunState.init
      [("DX12", [TestDecl.mk (some name) (some n) true false false])] =
      .ok { RunState.init with
            crash_cases := [launch_crash_generator_exe
              (TestCrashCase.init "DX12" name n true false) 0 log_crashed false],
            processes := 1, case_index := 1 } := by
    unfold run_descriptor
    rw [List.foldlM_cons]
    dsimp only
    rw [hapi]
    rfl
  unfold run_tests
  dsimp only
  rw [hrd]
  rfl

/-- Witness for the amended backend-skip claim at a concrete case id. -/
theorem backend_skip_counts_as_backend_pass_witness :
    (run_tests (fun _ => CaseEnv.mk 0 false false 0)
        (TestConfig.mk
          [[("DX12", [TestDecl.mk (some "witness case") (some 7)
              true false false])]]
          true)).map
      (Option.map (fun r => r.2.1.counters)) =
      .ok (some (TestDriver.mk 1 0 1 0)) :=
  backend_skip_counts_as_backend_pass false 0 "witness case" 7 (by decide)

end RGDTest
